import Mathlib

/-!
Verification of the glacier mass-balance model of the scandi-backend
repository (src/glacierModel.js): the snowpack-bucket recurrence with
lapse-rate correction and degree-day melt, and the processGlacier result
envelope.  Numeric values are modelled as rationals; JS nullable fields
become Option; the JS expression d.P || 0 becomes Option.getD with
default 0 (a stored 0 and a missing value both yield 0, as in JS).
-/

namespace ScandiBackend

/-- Constant LAPSE_RATE = -0.0065 from glacierModel.js. -/
def LAPSE_RATE : ℚ := -0.0065

/-- Constant T0 = 0.0 from glacierModel.js. -/
def T0 : ℚ := 0.0

/-- Constant DDF_SNOW = 3.0 from glacierModel.js. -/
def DDF_SNOW : ℚ := 3.0

/-- Constant DDF_ICE = 7.0 from glacierModel.js. -/
def DDF_ICE : ℚ := 7.0

/-- Constant TS_SNOW = 0.5 from glacierModel.js. -/
def TS_SNOW : ℚ := 0.5

/-- Constant ROS_P_MIN = 5.0 from glacierModel.js. -/
def ROS_P_MIN : ℚ := 5.0

/-- Constant SWE_MIN = 20.0 from glacierModel.js. -/
def SWE_MIN : ℚ := 20.0

/-- One calendar day of weather input: date key, station temperature T,
optional precipitation P (absent in JS when the upstream record carried
none). -/
structure ObservationDay where
  date : Nat
  T : ℚ
  P : Option ℚ
deriving DecidableEq, Repr

/-- One simulated output day, as emitted by snowpackBucket: the JS object
spread keeps date and the original P, overwrites T with the corrected
temperature, and adds Melt, SWE and ROS. -/
structure SimulatedDay where
  date : Nat
  T : ℚ
  P : Option ℚ
  Melt : ℚ
  SWE : ℚ
  ROS : Bool
deriving DecidableEq, Repr

/-- degreeDayMelt(T, snowCover) from glacierModel.js:
Math.max(T - T0, 0) * (snowCover ? DDF_SNOW : DDF_ICE). -/
def degreeDayMelt (T : ℚ) (snowCover : Bool) : ℚ :=
  let ddf := if snowCover then DDF_SNOW else DDF_ICE
  max (T - T0) 0 * ddf

/-- The series.map body of snowpackBucket, with the mutable accumulator
swe made an explicit argument threaded through the list. -/
def snowpackBucketAux (dz : ℚ) : ℚ → List ObservationDay → List SimulatedDay
  | _, [] => []
  | swe, d :: rest =>
    let Tcorr := d.T + LAPSE_RATE * dz
    let P := d.P.getD 0
    let swe1 := if Tcorr < TS_SNOW then swe + P
                else max (swe - degreeDayMelt Tcorr true) 0
    let Melt := degreeDayMelt Tcorr true
    let ROS := decide (TS_SNOW < Tcorr) && decide (ROS_P_MIN < P)
                 && decide (SWE_MIN < swe1)
    { date := d.date, T := Tcorr, P := d.P, Melt := Melt, SWE := swe1, ROS := ROS }
      :: snowpackBucketAux dz swe1 rest

/-- snowpackBucket(series, zGlacier, zStation) from glacierModel.js:
swe starts at 0, dz = zGlacier - zStation. -/
def snowpackBucket (series : List ObservationDay) (zGlacier zStation : ℚ) :
    List SimulatedDay :=
  snowpackBucketAux (zGlacier - zStation) 0 series

/-- JS string coalescing s || dflt: undefined, null and the empty string
all fall back to dflt. -/
def jsStringOr (s : Option String) (dflt : String) : String :=
  match s with
  | none => dflt
  | some v => if v = "" then dflt else v

/-- The arr.slice(-n) idiom: the last n elements of the list (the whole
list when it is shorter than n). -/
def sliceLast (n : Nat) (l : List α) : List α := l.drop (l.length - n)

/-- The response envelope returned by processGlacier. -/
structure GlacierResult where
  glacier_id : String
  glacier_name : String
  today : Option SimulatedDay
  history : List SimulatedDay
  dataQuality : String
deriving DecidableEq, Repr

/-- processGlacier from glacierModel.js: run the bucket over the whole
series, take the last element (or null) as today, keep the last 14 days
as history, and always report dataQuality "full". -/
def processGlacier (glacierId : String) (glacName : Option String)
    (zGlacier zStation : ℚ) (series : List ObservationDay) : GlacierResult :=
  let history := snowpackBucket series zGlacier zStation
  let today := history.getLast?
  { glacier_id := glacierId
    glacier_name := jsStringOr glacName glacierId
    today := today
    history := sliceLast 14 history
    dataQuality := "full" }

/-- Default ObservationDay used with List.getD. -/
def dfltObs : ObservationDay := { date := 0, T := 0, P := none }

/-- Default SimulatedDay used with List.getD. -/
def dfltSim : SimulatedDay :=
  { date := 0, T := 0, P := none, Melt := 0, SWE := 0, ROS := false }

example : processGlacier "g" none 0 0 [] =
    { glacier_id := "g", glacier_name := "g", today := none, history := [],
      dataQuality := "full" } := by
  norm_num [processGlacier, snowpackBucket, snowpackBucketAux, sliceLast, jsStringOr]

example :
    (snowpackBucket [⟨0, 2, some 10⟩] 0 0).map (fun d => (d.SWE, d.Melt, d.ROS)) =
      [(0, 6, false)] := by
  norm_num [snowpackBucket, snowpackBucketAux, degreeDayMelt, LAPSE_RATE, T0,
    DDF_SNOW, TS_SNOW, ROS_P_MIN, SWE_MIN]

example :
    (snowpackBucket [⟨0, 0, some 30⟩, ⟨1, 3, some 8⟩] 0 0).map
        (fun d => (d.SWE, d.Melt, d.ROS)) =
      [(30, 0, false), (21, 9, true)] := by
  norm_num [snowpackBucket, snowpackBucketAux, degreeDayMelt, LAPSE_RATE, T0,
    DDF_SNOW, TS_SNOW, ROS_P_MIN, SWE_MIN]

/-! ## General lemmas about the bucket simulation -/

theorem length_snowpackBucketAux (dz : ℚ) (series : List ObservationDay) (swe : ℚ) :
    (snowpackBucketAux dz swe series).length = series.length := by
  induction series generalizing swe with
  | nil => rfl
  | cons d rest ih => simp [snowpackBucketAux, ih]

theorem length_snowpackBucket (series : List ObservationDay) (zG zS : ℚ) :
    (snowpackBucket series zG zS).length = series.length :=
  length_snowpackBucketAux _ _ _

theorem degreeDayMelt_nonneg (T : ℚ) (b : Bool) : 0 ≤ degreeDayMelt T b := by
  refine mul_nonneg (le_max_right _ _) ?_
  cases b <;> norm_num [DDF_SNOW, DDF_ICE]

/-- Per-index description of the fields of an emitted day that do not
depend on the accumulator: date and P are carried over, T becomes the
lapse-corrected temperature, Melt is the snow-factor degree-day melt of
that corrected temperature. -/
theorem snowpackBucketAux_fields (dz : ℚ) (series : List ObservationDay) (swe : ℚ)
    (i : Nat) (h : i < series.length) :
    ((snowpackBucketAux dz swe series).getD i dfltSim).date =
        (series.getD i dfltObs).date ∧
    ((snowpackBucketAux dz swe series).getD i dfltSim).P =
        (series.getD i dfltObs).P ∧
    ((snowpackBucketAux dz swe series).getD i dfltSim).T =
        (series.getD i dfltObs).T + LAPSE_RATE * dz ∧
    ((snowpackBucketAux dz swe series).getD i dfltSim).Melt =
        degreeDayMelt ((series.getD i dfltObs).T + LAPSE_RATE * dz) true := by
  induction series generalizing swe i with
  | nil => exact absurd h (Nat.not_lt_zero i)
  | cons d rest ih =>
    cases i with
    | zero => simp [snowpackBucketAux]
    | succ j =>
      have hj : j < rest.length := Nat.lt_of_succ_lt_succ h
      simpa [snowpackBucketAux] using ih _ j hj

/-- An in-range getD pick is a member of the list. -/
theorem getD_mem_of_lt {α : Type} (l : List α) (i : Nat) (d : α) (h : i < l.length) :
    l.getD i d ∈ l := by
  rw [List.getD_eq_getElem?_getD, List.getElem?_eq_getElem h]
  exact List.getElem_mem h

/-- Per-index characterisation of the ROS flag: true exactly when the
corrected temperature, the day's precipitation, and the post-update SWE
all clear their thresholds. -/
theorem snowpackBucketAux_ros (dz : ℚ) (series : List ObservationDay) (swe : ℚ)
    (i : Nat) (h : i < series.length) :
    (((snowpackBucketAux dz swe series).getD i dfltSim).ROS = true ↔
      (TS_SNOW < ((snowpackBucketAux dz swe series).getD i dfltSim).T ∧
       ROS_P_MIN < ((snowpackBucketAux dz swe series).getD i dfltSim).P.getD 0 ∧
       SWE_MIN < ((snowpackBucketAux dz swe series).getD i dfltSim).SWE)) := by
  induction series generalizing swe i with
  | nil => exact absurd h (Nat.not_lt_zero i)
  | cons d rest ih =>
    cases i with
    | zero =>
      simp [snowpackBucketAux, Bool.and_eq_true, decide_eq_true_eq, and_assoc]
    | succ j =>
      have hj : j < rest.length := Nat.lt_of_succ_lt_succ h
      simpa [snowpackBucketAux] using ih _ j hj

/-- Per-index form of the snowpack accumulator recurrence: each emitted
SWE is obtained from the previous emitted SWE (the initial accumulator
for the first day) by the snowfall / melt branch of the bucket. -/
theorem snowpackBucketAux_swe (dz : ℚ) (series : List ObservationDay) (swe : ℚ)
    (i : Nat) (h : i < series.length) :
    ((snowpackBucketAux dz swe series).getD i dfltSim).SWE =
      (if (series.getD i dfltObs).T + LAPSE_RATE * dz < TS_SNOW then
        (if i = 0 then swe
         else ((snowpackBucketAux dz swe series).getD (i - 1) dfltSim).SWE)
          + (series.getD i dfltObs).P.getD 0
      else
        max ((if i = 0 then swe
              else ((snowpackBucketAux dz swe series).getD (i - 1) dfltSim).SWE)
          - max ((series.getD i dfltObs).T + LAPSE_RATE * dz - T0) 0 * DDF_SNOW) 0) := by
  induction series generalizing swe i with
  | nil => exact absurd h (Nat.not_lt_zero i)
  | cons d rest ih =>
    cases i with
    | zero => simp [snowpackBucketAux, degreeDayMelt]
    | succ j =>
      have hj : j < rest.length := Nat.lt_of_succ_lt_succ h
      cases j with
      | zero =>
        simpa [snowpackBucketAux, degreeDayMelt] using ih _ 0 hj
      | succ k =>
        simpa [snowpackBucketAux, degreeDayMelt, Nat.succ_sub_one] using ih _ (k + 1) hj

/-- The accumulator stays nonnegative when it starts nonnegative and
every day's (defaulted) precipitation is nonnegative. -/
theorem snowpackBucketAux_swe_nonneg (dz : ℚ) (series : List ObservationDay) (swe : ℚ)
    (h0 : 0 ≤ swe) (hP : ∀ d ∈ series, 0 ≤ d.P.getD 0) :
    ∀ day ∈ snowpackBucketAux dz swe series, 0 ≤ day.SWE := by
  induction series generalizing swe with
  | nil => simp [snowpackBucketAux]
  | cons d rest ih =>
    intro day hday
    have hP0 : 0 ≤ d.P.getD 0 := hP d (List.mem_cons_self d rest)
    have hPr : ∀ x ∈ rest, 0 ≤ x.P.getD 0 := fun x hx => hP x (List.mem_cons_of_mem d hx)
    have h1 : 0 ≤ (if d.T + LAPSE_RATE * dz < TS_SNOW then swe + d.P.getD 0
        else max (swe - degreeDayMelt (d.T + LAPSE_RATE * dz) true) 0) := by
      split
      · exact add_nonneg h0 hP0
      · exact le_max_right _ _
    rcases (by simpa [snowpackBucketAux] using hday :
        day = _ ∨ day ∈ snowpackBucketAux dz _ rest) with rfl | hmem
    · exact h1
    · exact ih _ h1 hPr day hmem

/-- When no day carries a precipitation value, the accumulator stays at
zero for the whole run and ROS can never fire. -/
theorem snowpackBucketAux_noP (dz : ℚ) (series : List ObservationDay)
    (hP : ∀ d ∈ series, d.P = none) :
    ∀ day ∈ snowpackBucketAux dz 0 series, day.SWE = 0 ∧ day.ROS = false := by
  induction series with
  | nil => simp [snowpackBucketAux]
  | cons d rest ih =>
    intro day hday
    have hd : d.P = none := hP d (List.mem_cons_self d rest)
    have hPr : ∀ x ∈ rest, x.P = none := fun x hx => hP x (List.mem_cons_of_mem d hx)
    have h1 : (if d.T + LAPSE_RATE * dz < TS_SNOW then d.P.getD 0
        else max (-degreeDayMelt (d.T + LAPSE_RATE * dz) true) 0) = 0 := by
      rw [hd]
      split
      · simp
      · exact max_eq_right (neg_nonpos.mpr (degreeDayMelt_nonneg _ true))
    rcases (by simpa [snowpackBucketAux] using hday :
        day = _ ∨ day ∈ snowpackBucketAux dz _ rest) with rfl | hmem
    · constructor
      · exact h1
      · show (_ && _ && decide (SWE_MIN < _)) = false
        rw [h1]
        have h2 : decide (SWE_MIN < (0 : ℚ)) = false := by
          simp only [decide_eq_false_iff_not, not_lt]
          norm_num [SWE_MIN]
        rw [h2, Bool.and_false]
    · rw [h1] at hmem
      exact ih hPr day hmem

/-- The emitted temperatures are exactly the lapse-corrected station
temperatures, in order. -/
theorem snowpackBucketAux_map_T (dz : ℚ) (series : List ObservationDay) (swe : ℚ) :
    (snowpackBucketAux dz swe series).map (fun day => day.T) =
      series.map (fun d => d.T + LAPSE_RATE * dz) := by
  induction series generalizing swe with
  | nil => rfl
  | cons d rest ih => simp [snowpackBucketAux, ih]

/-! ## Concrete inputs used to instantiate the claims -/

/-- Two days: a cold snowfall day building a 30 mm pack, then a 3 °C day
with 8 mm of rain (Scenario C of the spec). -/
def exC4 : List ObservationDay := [⟨0, 0, some 30⟩, ⟨1, 3, some 8⟩]

/-- One mild day with 10 mm precipitation. -/
def exPos : List ObservationDay := [⟨0, 0, some 10⟩]

/-- One day carrying a (physically impossible) negative precipitation
value. -/
def exNegP : List ObservationDay := [⟨0, 0, some (-5)⟩]

/-- One day with a temperature but no precipitation record. -/
def exNoP : List ObservationDay := [⟨0, 1, none⟩]

/-- Fifteen cold days: 10 mm of snow on the first day, nothing after, so
the pack built on day 0 persists into the 14-day window. -/
def ex15 : List ObservationDay :=
  [⟨0, 0, some 10⟩, ⟨1, 0, some 0⟩, ⟨2, 0, some 0⟩, ⟨3, 0, some 0⟩,
   ⟨4, 0, some 0⟩, ⟨5, 0, some 0⟩, ⟨6, 0, some 0⟩, ⟨7, 0, some 0⟩,
   ⟨8, 0, some 0⟩, ⟨9, 0, some 0⟩, ⟨10, 0, some 0⟩, ⟨11, 0, some 0⟩,
   ⟨12, 0, some 0⟩, ⟨13, 0, some 0⟩, ⟨14, 0, some 0⟩]

/-! ## Claim theorems -/

/-- C1 counterexample: on an empty series processGlacier does not report
dataQuality "none"; the code labels every result "full". -/
theorem C1_counterexample_dataQuality :
    (processGlacier "g" none 0 0 []).dataQuality ≠ "none" := by
  simp [processGlacier]

/-- C1 (amended): for an empty input series, processGlacier returns
today = null and history = [], but dataQuality is "full" (the only value
the code ever emits), not "none". -/
theorem C1_empty_series (gid : String) (gn : Option String) (zG zS : ℚ) :
    (processGlacier gid gn zG zS []).today = none ∧
    (processGlacier gid gn zG zS []).history = [] ∧
    (processGlacier gid gn zG zS []).dataQuality = "full" := by
  refine ⟨rfl, rfl, rfl⟩

/-- C2 counterexample: on a non-empty temperature-only series (no day
has a precipitation value) processGlacier does not report
dataQuality "temp-only". -/
theorem C2_counterexample_dataQuality :
    (processGlacier "g" none 0 0 exNoP).dataQuality ≠ "temp-only" := by
  simp [processGlacier]

/-- C2 (amended): for a non-empty series in which no day carries a
precipitation value, the code still runs the full bucket with the
precipitation defaulted to 0: every emitted day has SWE = 0 and
ROS = false (the output fields are never null), and dataQuality is
"full", not "temp-only". -/
theorem C2_temp_only_series (gid : String) (gn : Option String) (zG zS : ℚ)
    (series : List ObservationDay) (_hne : series ≠ [])
    (hP : ∀ d ∈ series, d.P = none) :
    (processGlacier gid gn zG zS series).dataQuality = "full" ∧
    ∀ day ∈ (processGlacier gid gn zG zS series).history,
      day.SWE = 0 ∧ day.ROS = false := by
  refine ⟨rfl, ?_⟩
  intro day hday
  have hh : (processGlacier gid gn zG zS series).history =
      sliceLast 14 (snowpackBucket series zG zS) := rfl
  rw [hh, sliceLast] at hday
  exact snowpackBucketAux_noP (zG - zS) series hP day (List.mem_of_mem_drop hday)

/-- C2 witness: the amended statement instantiated on the one-day
temperature-only series. -/
theorem C2_witness :
    (processGlacier "g" none 0 0 exNoP).dataQuality = "full" ∧
    ∀ day ∈ (processGlacier "g" none 0 0 exNoP).history,
      day.SWE = 0 ∧ day.ROS = false :=
  C2_temp_only_series "g" none 0 0 exNoP (by decide) (by decide)

/-- C3: the emitted SWE follows the stated recurrence: from a previous
value (0 before the first day), a corrected temperature below the 0.5 °C
threshold adds the day's precipitation and subtracts no melt, otherwise
the new value is max(previous − max(Tcorr − 0, 0) * 3.0, 0). -/
theorem C3_swe_recurrence (series : List ObservationDay) (zG zS : ℚ) (i : Nat)
    (h : i < series.length) :
    ((snowpackBucket series zG zS).getD i dfltSim).SWE =
      (if (series.getD i dfltObs).T + LAPSE_RATE * (zG - zS) < TS_SNOW then
        (if i = 0 then 0
         else ((snowpackBucket series zG zS).getD (i - 1) dfltSim).SWE)
          + (series.getD i dfltObs).P.getD 0
      else
        max ((if i = 0 then 0
              else ((snowpackBucket series zG zS).getD (i - 1) dfltSim).SWE)
          - max ((series.getD i dfltObs).T + LAPSE_RATE * (zG - zS) - T0) 0 * DDF_SNOW) 0) :=
  snowpackBucketAux_swe (zG - zS) series 0 i h

/-- C3 witness: the recurrence instantiated on the second day of the
two-day Scenario C series. -/
theorem C3_witness :
    1 < exC4.length ∧
    ((snowpackBucket exC4 0 0).getD 1 dfltSim).SWE =
      (if (exC4.getD 1 dfltObs).T + LAPSE_RATE * (0 - 0) < TS_SNOW then
        (if 1 = 0 then 0
         else ((snowpackBucket exC4 0 0).getD (1 - 1) dfltSim).SWE)
          + (exC4.getD 1 dfltObs).P.getD 0
      else
        max ((if 1 = 0 then 0
              else ((snowpackBucket exC4 0 0).getD (1 - 1) dfltSim).SWE)
          - max ((exC4.getD 1 dfltObs).T + LAPSE_RATE * (0 - 0) - T0) 0 * DDF_SNOW) 0) :=
  ⟨by decide, C3_swe_recurrence exC4 0 0 1 (by decide)⟩

/-- C4: the emitted ROS flag is true exactly when the corrected
temperature exceeds 0.5 °C, the day's precipitation exceeds 5.0 mm and
the post-update SWE exceeds 20.0 mm; moreover on the Scenario C input
(pre-existing 30 mm pack, Tcorr = 3 °C, P = 8 mm) the emitted day has
SWE = 21 and ROS = true. -/
theorem C4_ros_iff :
    (∀ (series : List ObservationDay) (zG zS : ℚ) (i : Nat),
      i < series.length →
      (((snowpackBucket series zG zS).getD i dfltSim).ROS = true ↔
        (TS_SNOW < (series.getD i dfltObs).T + LAPSE_RATE * (zG - zS) ∧
         ROS_P_MIN < (series.getD i dfltObs).P.getD 0 ∧
         SWE_MIN < ((snowpackBucket series zG zS).getD i dfltSim).SWE))) ∧
    ((snowpackBucket exC4 0 0).getD 1 dfltSim).SWE = 21 ∧
    ((snowpackBucket exC4 0 0).getD 1 dfltSim).ROS = true := by
  refine ⟨?_, ?_, ?_⟩
  · intro series zG zS i h
    have hf := snowpackBucketAux_fields (zG - zS) series 0 i h
    have hr := snowpackBucketAux_ros (zG - zS) series 0 i h
    rw [hf.2.2.1, hf.2.1] at hr
    exact hr
  · norm_num [snowpackBucket, snowpackBucketAux, exC4, degreeDayMelt, LAPSE_RATE,
      T0, DDF_SNOW, TS_SNOW, ROS_P_MIN, SWE_MIN]
  · norm_num [snowpackBucket, snowpackBucketAux, exC4, degreeDayMelt, LAPSE_RATE,
      T0, DDF_SNOW, TS_SNOW, ROS_P_MIN, SWE_MIN]

/-- C4 witness: the ROS characterisation instantiated on the second day
of the Scenario C series. -/
theorem C4_witness :
    1 < exC4.length ∧
    (((snowpackBucket exC4 0 0).getD 1 dfltSim).ROS = true ↔
      (TS_SNOW < (exC4.getD 1 dfltObs).T + LAPSE_RATE * (0 - 0) ∧
       ROS_P_MIN < (exC4.getD 1 dfltObs).P.getD 0 ∧
       SWE_MIN < ((snowpackBucket exC4 0 0).getD 1 dfltSim).SWE)) :=
  ⟨by decide, C4_ros_iff.1 exC4 0 0 1 (by decide)⟩

/-- C5: the recorded Melt always equals max(Tcorr − 0, 0) * 3.0, the
snow-factor degree-day melt of the emitted (corrected) temperature,
regardless of branch; and whenever Tcorr is above freezing it differs
from the value the ice factor 7.0 would give, so the ice factor is never
the one used. -/
theorem C5_melt_formula (series : List ObservationDay) (zG zS : ℚ) (i : Nat)
    (h : i < series.length) :
    ((snowpackBucket series zG zS).getD i dfltSim).Melt =
      max ((series.getD i dfltObs).T + LAPSE_RATE * (zG - zS) - T0) 0 * DDF_SNOW ∧
    ((snowpackBucket series zG zS).getD i dfltSim).Melt =
      degreeDayMelt ((snowpackBucket series zG zS).getD i dfltSim).T true ∧
    (T0 < ((snowpackBucket series zG zS).getD i dfltSim).T →
      ((snowpackBucket series zG zS).getD i dfltSim).Melt ≠
        degreeDayMelt ((snowpackBucket series zG zS).getD i dfltSim).T false) := by
  simp only [snowpackBucket]
  have hf := snowpackBucketAux_fields (zG - zS) series 0 i h
  have hT := hf.2.2.1
  have hM := hf.2.2.2
  refine ⟨?_, ?_, ?_⟩
  · rw [hM, degreeDayMelt]
    simp
  · rw [hM, hT]
  · intro hpos
    rw [hM, hT]
    rw [hT] at hpos
    set x := (series.getD i dfltObs).T + LAPSE_RATE * (zG - zS) with hx
    have hp0 : (0 : ℚ) < x := by
      have h00 : T0 = (0 : ℚ) := by norm_num [T0]
      rw [h00] at hpos
      exact hpos
    have hmax : max (x - T0) 0 = x := by
      have h00 : T0 = (0 : ℚ) := by norm_num [T0]
      rw [h00, sub_zero]
      exact max_eq_left (le_of_lt hp0)
    simp only [degreeDayMelt, if_true, if_false, Bool.false_eq_true, ite_false, ite_true]
    rw [hmax]
    have hxne : x ≠ 0 := ne_of_gt hp0
    intro heq
    have h37 : (DDF_SNOW : ℚ) = DDF_ICE := mul_left_cancel₀ hxne heq
    norm_num [DDF_SNOW, DDF_ICE] at h37

/-- C5 witness: the melt description instantiated on the second day of
the Scenario C series. -/
theorem C5_witness :
    1 < exC4.length ∧
    (((snowpackBucket exC4 0 0).getD 1 dfltSim).Melt =
      max ((exC4.getD 1 dfltObs).T + LAPSE_RATE * (0 - 0) - T0) 0 * DDF_SNOW ∧
    ((snowpackBucket exC4 0 0).getD 1 dfltSim).Melt =
      degreeDayMelt ((snowpackBucket exC4 0 0).getD 1 dfltSim).T true ∧
    (T0 < ((snowpackBucket exC4 0 0).getD 1 dfltSim).T →
      ((snowpackBucket exC4 0 0).getD 1 dfltSim).Melt ≠
        degreeDayMelt ((snowpackBucket exC4 0 0).getD 1 dfltSim).T false)) :=
  ⟨by decide, C5_melt_formula exC4 0 0 1 (by decide)⟩

/-- C6: the emitted temperatures are exactly the station temperatures
shifted by LAPSE_RATE * (zGlacier − zStation); in particular with equal
elevations they are exactly the raw station temperatures. -/
theorem C6_lapse_correction (series : List ObservationDay) (zG zS : ℚ) :
    (snowpackBucket series zG zS).map (fun day => day.T) =
      series.map (fun d => d.T + LAPSE_RATE * (zG - zS)) ∧
    (zG = zS →
      (snowpackBucket series zG zS).map (fun day => day.T) =
        series.map (fun d => d.T)) := by
  constructor
  · exact snowpackBucketAux_map_T (zG - zS) series 0
  · intro hzz
    subst hzz
    simp only [snowpackBucket]
    rw [snowpackBucketAux_map_T (zG - zG) series 0]
    simp

/-- C6 witness: the lapse correction instantiated on the Scenario C
series with equal glacier and station elevations. -/
theorem C6_witness :
    (snowpackBucket exC4 5 5).map (fun day => day.T) =
      exC4.map (fun d => d.T + LAPSE_RATE * (5 - 5)) ∧
    (snowpackBucket exC4 5 5).map (fun day => day.T) =
      exC4.map (fun d => d.T) :=
  ⟨(C6_lapse_correction exC4 5 5).1, (C6_lapse_correction exC4 5 5).2 rfl⟩

/-- C7 counterexample: with a (physically impossible) negative
precipitation value the snowfall branch drives SWE below zero, so the
floor does not hold for every input series. -/
theorem C7_counterexample_negative_swe :
    ¬ (∀ day ∈ (processGlacier "g" none 0 0 exNegP).history, 0 ≤ day.SWE) := by
  intro hall
  have hh : (processGlacier "g" none 0 0 exNegP).history =
      [{ date := 0, T := 0, P := some (-5), Melt := 0, SWE := -5, ROS := false }] := by
    norm_num [processGlacier, snowpackBucket, snowpackBucketAux, sliceLast, exNegP,
      degreeDayMelt, LAPSE_RATE, T0, DDF_SNOW, TS_SNOW, ROS_P_MIN, SWE_MIN]
  rw [hh] at hall
  have h5 := hall _ (List.mem_singleton.mpr rfl)
  norm_num at h5

/-- C7 (amended): provided every day's precipitation value (defaulted to
0 when absent) is nonnegative — as physical precipitation amounts are —
every emitted day of the full-tier history satisfies SWE ≥ 0. -/
theorem C7_swe_floor (gid : String) (gn : Option String) (zG zS : ℚ)
    (series : List ObservationDay) (i : Nat)
    (hP : ∀ d ∈ series, 0 ≤ d.P.getD 0)
    (hi : i < (processGlacier gid gn zG zS series).history.length) :
    0 ≤ ((processGlacier gid gn zG zS series).history.getD i dfltSim).SWE := by
  have hmem := getD_mem_of_lt _ i dfltSim hi
  have hh : (processGlacier gid gn zG zS series).history =
      sliceLast 14 (snowpackBucket series zG zS) := rfl
  rw [hh, sliceLast] at hmem
  exact snowpackBucketAux_swe_nonneg (zG - zS) series 0 le_rfl hP _
    (List.mem_of_mem_drop hmem)

/-- C7 witness: the amended floor instantiated on a one-day series with
10 mm of precipitation. -/
theorem C7_witness :
    0 ≤ ((processGlacier "g" none 0 0 exPos).history.getD 0 dfltSim).SWE :=
  C7_swe_floor "g" none 0 0 exPos 0 (by decide) (by decide)

/-- C8: for a non-empty series, today is the last entry of the returned
history, and the history is the tail slice of the simulated series with
exactly min(14, series length) entries, in simulation order. -/
theorem C8_today_is_last (gid : String) (gn : Option String) (zG zS : ℚ)
    (series : List ObservationDay) (h : series ≠ []) :
    (processGlacier gid gn zG zS series).today =
      (processGlacier gid gn zG zS series).history.getLast? ∧
    (processGlacier gid gn zG zS series).history ≠ [] ∧
    (processGlacier gid gn zG zS series).history =
      sliceLast 14 (snowpackBucket series zG zS) ∧
    (processGlacier gid gn zG zS series).history.length = min 14 series.length := by
  have hpos : 0 < series.length := List.length_pos.mpr h
  have hlen : (snowpackBucket series zG zS).length = series.length :=
    length_snowpackBucket series zG zS
  have hh : (processGlacier gid gn zG zS series).history =
      sliceLast 14 (snowpackBucket series zG zS) := rfl
  have hlen2 : (processGlacier gid gn zG zS series).history.length =
      series.length - (series.length - 14) := by
    rw [hh, sliceLast, List.length_drop, hlen]
  refine ⟨?_, ?_, hh, ?_⟩
  · have ht : (processGlacier gid gn zG zS series).today =
        (snowpackBucket series zG zS).getLast? := rfl
    rw [ht, hh, sliceLast, List.getLast?_drop, hlen,
      if_neg (by omega : ¬ (series.length ≤ series.length - 14))]
  · refine List.length_pos.mp ?_
    rw [hlen2]
    omega
  · rw [hlen2]
    omega

/-- C8 witness: the last-day property instantiated on the two-day
Scenario C series. -/
theorem C8_witness :
    (processGlacier "g" none 0 0 exC4).today =
      (processGlacier "g" none 0 0 exC4).history.getLast? ∧
    (processGlacier "g" none 0 0 exC4).history ≠ [] ∧
    (processGlacier "g" none 0 0 exC4).history =
      sliceLast 14 (snowpackBucket exC4 0 0) ∧
    (processGlacier "g" none 0 0 exC4).history.length = min 14 exC4.length :=
  C8_today_is_last "g" none 0 0 exC4 (by decide)

/-- C9: the recorded Melt is nonnegative on every emitted day, for every
input series. -/
theorem C9_melt_nonneg (series : List ObservationDay) (zG zS : ℚ) (i : Nat)
    (h : i < series.length) :
    0 ≤ ((snowpackBucket series zG zS).getD i dfltSim).Melt := by
  simp only [snowpackBucket]
  rw [(snowpackBucketAux_fields (zG - zS) series 0 i h).2.2.2]
  exact degreeDayMelt_nonneg _ true

/-- C9 witness: melt nonnegativity instantiated on the first Scenario C
day. -/
theorem C9_witness :
    0 ≤ ((snowpackBucket exC4 0 0).getD 0 dfltSim).Melt :=
  C9_melt_nonneg exC4 0 0 0 (by decide)

/-- C10: the returned history is the last-14 slice of the simulation of
the whole series, so the accumulator is not reset at the truncation
boundary: on the 15-day example the first returned day still carries the
10 mm of snow that fell on the dropped first day, whereas a fresh
simulation of only the last 14 days would start it at 0. -/
theorem C10_no_reset_at_truncation :
    (∀ (gid : String) (gn : Option String) (zG zS : ℚ)
        (series : List ObservationDay),
      (processGlacier gid gn zG zS series).history =
        sliceLast 14 (snowpackBucket series zG zS)) ∧
    14 < ex15.length ∧
    (processGlacier "g" none 0 0 ex15).history.length = 14 ∧
    ((processGlacier "g" none 0 0 ex15).history.getD 0 dfltSim).SWE = 10 ∧
    ((snowpackBucket (ex15.drop 1) 0 0).getD 0 dfltSim).SWE = 0 := by
  refine ⟨fun gid gn zG zS series => rfl, by decide, by decide, ?_, ?_⟩
  · norm_num [ex15, processGlacier, snowpackBucket, snowpackBucketAux, sliceLast,
      degreeDayMelt, LAPSE_RATE, T0, DDF_SNOW, TS_SNOW, ROS_P_MIN, SWE_MIN]
  · norm_num [ex15, processGlacier, snowpackBucket, snowpackBucketAux, sliceLast,
      degreeDayMelt, LAPSE_RATE, T0, DDF_SNOW, TS_SNOW, ROS_P_MIN, SWE_MIN]

end ScandiBackend
